import Mathlib

/-
Verification of the Autoflow Blender add-on (src/autoflow) against its
specification.  The Python modules utils.py, operators.py, preferences.py,
properties.py and ui.py are shallowly embedded below: pure helpers become
Lean functions, host and OS state read by the add-on (sys.platform, the
PATH probe behind `which`, Path.exists, the enabled-add-on preference
records) is gathered in an explicit Env value, and the operator execute
method becomes a pure function from the invocation environment, the host
outcome (temporary directory, subprocess result, imported objects) and the
scene to the resulting scene plus a trace of its external effects.
-/

namespace Autoflow

/-- The value of the Python name given to this package inside the add-on
(its modules read it as the double-underscore package attribute). -/
def packageName : String := "autoflow"

/-- The stored preference record of the add-on (preferences.py): a
StringProperty quadriflow_path and an IntProperty quadriflow_timeout.
A field is none when the user never set that preference, which is how the
host keeps a declared-but-unset property; reads then take the default
given at the call site of the dict get. -/
structure AddonPrefsStore where
  quadriflow_path : Option String
  quadriflow_timeout : Option Int
deriving DecidableEq

/-- Host and OS state read by the add-on at invocation time:
sys.platform, whether `which cmd` succeeds for a command name, whether a
path exists on disk, and the preference records of the enabled add-ons
(bpy.context.user_preferences.addons, a map from add-on name). -/
structure Env where
  platform : String
  installed : String → Bool
  fileExists : String → Bool
  enabledAddons : String → Option AddonPrefsStore

/-- Python str.lower on one character, for the ASCII range the platform
strings use. -/
def pyLowerChar (c : Char) : Char :=
  if 'A' ≤ c && c ≤ 'Z' then Char.ofNat (c.toNat + 32) else c

/-- Python str.lower, character by character. -/
def pyLower (s : String) : String :=
  String.mk (s.data.map pyLowerChar)

/-- Python str.startswith. -/
def pyStartsWith (s p : String) : Bool :=
  p.data.isPrefixOf s.data

/-- utils.os_is_linux: sys.platform lowercased starts with "linux". -/
def os_is_linux (env : Env) : Bool :=
  pyStartsWith (pyLower env.platform) "linux"

/-- utils.os_is_windows: sys.platform lowercased starts with "win". -/
def os_is_windows (env : Env) : Bool :=
  pyStartsWith (pyLower env.platform) "win"

/-- utils.autoflow_is_compatible_with_os. -/
def autoflow_is_compatible_with_os (env : Env) : Bool :=
  os_is_linux env || os_is_windows env

/-- utils.unix_executable_is_installed: runs `which cmd` and returns
whether it succeeded; the Env field installed records that outcome. -/
def unix_executable_is_installed (env : Env) (executable_command : String) : Bool :=
  env.installed executable_command

/-- utils.sat_flag_is_allowed: Linux, and both minisat and timeout are on
the PATH.  Evaluated on the Env of the current invocation; nothing is
cached. -/
def sat_flag_is_allowed (env : Env) : Bool :=
  os_is_linux env
    && unix_executable_is_installed env "minisat"
    && unix_executable_is_installed env "timeout"

/-- utils.get_addon_preferences: the preference record of an enabled
add-on, or none standing for the empty dict returned when the add-on is
not among the enabled ones. -/
def get_addon_preferences (env : Env) (addon_name : String) : Option AddonPrefsStore :=
  env.enabledAddons addon_name

/-- utils.get_addon_preference specialised to the quadriflow_path key:
the dict get with a default, on the StringProperty field. -/
def get_addon_preference_path (env : Env) (addon_name : String) (default : String) : String :=
  match get_addon_preferences env addon_name with
  | some store => store.quadriflow_path.getD default
  | none => default

/-- utils.get_addon_preference specialised to the quadriflow_timeout key:
the dict get with a default, on the IntProperty field. -/
def get_addon_preference_timeout (env : Env) (addon_name : String) (default : Int) : Int :=
  match get_addon_preferences env addon_name with
  | some store => store.quadriflow_timeout.getD default
  | none => default

/-- The pathlib Path constructor applied to a string, kept as a string.
Only the normalisation of the empty string to "." is modelled; the paths
handled by the add-on carry no trailing separators, so the further
pathlib normalisations never fire on them. -/
def pyPath (s : String) : String :=
  if s = "" then "." else s

/-- utils.get_quadriflow_path_from_addon_prefs. -/
def get_quadriflow_path_from_addon_prefs (env : Env) : String :=
  pyPath (get_addon_preference_path env packageName "")

/-- utils.get_quadriflow_timeout_from_addon_prefs: the stored value with
default 0, clamped below by 0 with max. -/
def get_quadriflow_timeout_from_addon_prefs (env : Env) : Int :=
  max (get_addon_preference_timeout env packageName 0) 0

/-- utils.quadriflow_path_pref_is_set: the configured path differs from
the Path built from the empty string. -/
def quadriflow_path_pref_is_set (env : Env) : Bool :=
  get_quadriflow_path_from_addon_prefs env != pyPath ""

/-- Python string repetition s * n (the source multiplies flag strings by
booleans, which Python reads as the integers 0 and 1). -/
def pyStrMul (s : String) : Nat → String
  | 0 => ""
  | n + 1 => pyStrMul s n ++ s

/-- The per-scene settings record (properties.py AutoflowSettings). -/
structure AutoflowSettings where
  flip_removal : Bool
  min_cost_flow : Bool
  require_manifold : Bool
  resolution : Int
  sharp_preserving : Bool
deriving DecidableEq

/-- The quadriflow_cmd list built inside utils.remesh_with_quadriflow,
element by element: the executable path, the three flag strings each
multiplied by its boolean condition, then -i, the input path, -o, the
output path, -f, and the resolution rendered as a string. -/
def quadriflow_cmd (env : Env) (input_path output_path : String)
    (autoflow_args : AutoflowSettings) : List String :=
  [ get_quadriflow_path_from_addon_prefs env,
    pyStrMul "-mcf" autoflow_args.min_cost_flow.toNat,
    pyStrMul "-sharp" autoflow_args.sharp_preserving.toNat,
    pyStrMul (pyStrMul "-sat" (sat_flag_is_allowed env).toNat) autoflow_args.flip_removal.toNat,
    "-i", input_path,
    "-o", output_path,
    "-f", toString autoflow_args.resolution ]

/-- The Python exception classes the operator distinguishes. -/
inductive PyErr
  | permissionError
  | timeoutExpired
  | calledProcessError
deriving DecidableEq

/-- Whether an exception is an instance of subprocess.SubprocessError
(TimeoutExpired and CalledProcessError are; PermissionError is an
OSError, not a SubprocessError). -/
def isSubprocessError : PyErr → Bool
  | .timeoutExpired => true
  | .calledProcessError => true
  | .permissionError => false

/-- How one attempt to run the external executable ends, as decided by
the operating system: the process ran to completion with some exit code,
the enforced timeout expired, or the OS denied the launch. -/
inductive SubprocessOutcome
  | completed (exitCode : Int)
  | timedOut
  | permissionDenied
deriving DecidableEq

/-- A Python call either returns normally or raises an exception. -/
inductive PyResult
  | ok
  | raised (e : PyErr)
deriving DecidableEq

/-- subprocess.run, as used here: raises TimeoutExpired when the timeout
expires, PermissionError when the OS denies the launch, and
CalledProcessError only when check is true and the exit code is nonzero;
with check false a completed process returns normally whatever its exit
code. -/
def subprocess_run (check : Bool) (outcome : SubprocessOutcome) : PyResult :=
  match outcome with
  | .completed exitCode => if check && exitCode != 0 then .raised .calledProcessError else .ok
  | .timedOut => .raised .timeoutExpired
  | .permissionDenied => .raised .permissionError

/-- What one call of utils.remesh_with_quadriflow does: the command list
it builds, the timeout it hands to subprocess.run (the Python expression
timeout if timeout else None, so 0 and None both mean no timeout), and
whether the call returns or raises. -/
structure RemeshCall where
  cmd : List String
  timeout : Option Int
  result : PyResult
deriving DecidableEq

/-- utils.remesh_with_quadriflow: builds quadriflow_cmd and calls
subprocess.run with check false on it.  The SubprocessOutcome argument
stands for what the OS does with that launch. -/
def remesh_with_quadriflow (env : Env) (input_path output_path : String)
    (autoflow_args : AutoflowSettings) (timeout : Option Int)
    (outcome : SubprocessOutcome) : RemeshCall :=
  { cmd := quadriflow_cmd env input_path output_path autoflow_args
    timeout :=
      match timeout with
      | some t => if t != 0 then some t else none
      | none => none
    result := subprocess_run false outcome }

/-- Splits a list at the last occurrence of sep: some (before, after)
with sep nowhere in after, or none when sep does not occur. -/
def splitAtLast (sep : Char) : List Char → Option (List Char × List Char)
  | [] => none
  | c :: rest =>
    match splitAtLast sep rest with
    | some (before, after) => some (c :: before, after)
    | none => if c = sep then some ([], rest) else none

/-- utils.get_quadriflow_output_path: inserts _remeshed between the stem
and the suffix of the final path component, keeping the parent.  The
pathlib stem and suffix split at the last dot of the name, with a name
whose only dot is its first character keeping an empty suffix; a path
with no separator has no written parent, matching the string of the
pathlib result. -/
def get_quadriflow_output_path (input_path : String) : String :=
  let cs := input_path.data
  let pn : Option (List Char) × List Char :=
    match splitAtLast '/' cs with
    | some (p, n) => (some p, n)
    | none => (none, cs)
  let ss : List Char × List Char :=
    match splitAtLast '.' pn.2 with
    | some (st, sfx) => if st.isEmpty then (pn.2, []) else (st, '.' :: sfx)
    | none => (pn.2, [])
  let output_name := ss.1 ++ "_remeshed".data ++ ss.2
  match pn.1 with
  | some p => String.mk (p ++ '/' :: output_name)
  | none => String.mk output_name

/-- The mesh data the manifold probe looks at, in the form bmesh exposes
after from_mesh: vertex indices, edges as unordered vertex pairs, and
faces as cyclic vertex lists. -/
structure BMesh where
  verts : List Nat
  edges : List (Nat × Nat)
  faces : List (List Nat)
deriving DecidableEq

/-- One left rotation of a list, used to pair each face vertex with its
cyclic successor. -/
def rotateOne : List α → List α
  | [] => []
  | a :: as => as ++ [a]

/-- The boundary edges of a face, as ordered pairs of cyclically
consecutive vertices. -/
def face_edges (f : List Nat) : List (Nat × Nat) :=
  f.zip (rotateOne f)

/-- Whether a face has the (undirected) edge e on its boundary. -/
def face_has_edge (f : List Nat) (e : Nat × Nat) : Bool :=
  (face_edges f).any (fun p => (p.1 == e.1 && p.2 == e.2) || (p.1 == e.2 && p.2 == e.1))

/-- Number of faces of the mesh bounded by the edge e. -/
def edge_face_count (m : BMesh) (e : Nat × Nat) : Nat :=
  (m.faces.filter (fun f => face_has_edge f e)).length

/-- Modelled from the spec: the bmesh per-edge is_manifold flag is
computed by the host, not by this repository; the spec defines it as the
edge being bounded by exactly two faces. -/
def edge_is_manifold (m : BMesh) (e : Nat × Nat) : Bool :=
  edge_face_count m e == 2

/-- The faces of the mesh incident to the vertex v. -/
def vert_faces (m : BMesh) (v : Nat) : List (List Nat) :=
  m.faces.filter (fun f => f.contains v)

/-- The edges of the mesh incident to the vertex v. -/
def vert_edges (m : BMesh) (v : Nat) : List (Nat × Nat) :=
  m.edges.filter (fun e => e.1 == v || e.2 == v)

/-- Whether two faces share an edge incident to the vertex v. -/
def fan_adjacent (v : Nat) (f g : List Nat) : Bool :=
  (face_edges f).any (fun e => (e.1 == v || e.2 == v) && face_has_edge g e)

/-- One expansion step of reachability over face indices below n. -/
def fan_step (adj : Nat → Nat → Bool) (n : Nat) (cur : List Nat) : List Nat :=
  (List.range n).filter (fun j => cur.contains j || cur.any (fun i => adj i j))

/-- k expansion steps of reachability from face index 0. -/
def fan_reach (adj : Nat → Nat → Bool) (n : Nat) : Nat → List Nat
  | 0 => [0]
  | k + 1 => fan_step adj n (fan_reach adj n k)

/-- Whether the faces incident to v are all connected to one another
through edges incident to v (reachability from the first incident face,
iterated as many times as there are incident faces). -/
def vert_fan_is_connected (m : BMesh) (v : Nat) : Bool :=
  let fs := vert_faces m v
  let n := fs.length
  let adj : Nat → Nat → Bool := fun i j =>
    match fs[i]?, fs[j]? with
    | some f, some g => i != j && fan_adjacent v f g
    | _, _ => false
  n == 0 || (List.range n).all (fun j => (fan_reach adj n n).contains j)

/-- Modelled from the spec: the bmesh per-vertex is_manifold flag is
computed by the host, not by this repository; the spec defines it as the
incident-face fan of the vertex forming a single connected disk.  That
holds of a vertex when it has at least one incident face, every incident
edge lies in one or two incident faces (none in zero, so no wire edges,
and none in three or more), and the incident faces are connected to one
another through shared incident edges: each face then meets at most two
others at v, so the fan is a single open or closed fan, a disk. -/
def vert_is_manifold (m : BMesh) (v : Nat) : Bool :=
  !(vert_faces m v).isEmpty
    && (vert_edges m v).all (fun e => edge_face_count m e == 1 || edge_face_count m e == 2)
    && vert_fan_is_connected m v

/-- utils.all_elements_are_manifold: all elements of the iterable have a
true is_manifold attribute. -/
def all_elements_are_manifold (elements : List α) (is_manifold : α → Bool) : Bool :=
  elements.all is_manifold

/-- utils.mesh_is_manifold: all edges and then all vertices of the bmesh
built from the mesh are manifold. -/
def mesh_is_manifold (mesh : BMesh) : Bool :=
  all_elements_are_manifold mesh.edges (edge_is_manifold mesh)
    && all_elements_are_manifold mesh.verts (vert_is_manifold mesh)

/-- A Blender scene object as the add-on reads it: the id field models
Python object identity (bpy objects compare by identity, and the
selection code mutates the select flag of the same identity), and data is
the mesh data block viewed through bmesh. -/
structure SceneObj where
  id : Nat
  name : String
  mode : String
  type : String
  select : Bool
  data : BMesh
deriving DecidableEq

/-- Python membership obj in objects for bpy objects: comparison by
identity, here by the id field. -/
def pyIn (obj : SceneObj) (objects : List SceneObj) : Bool :=
  objects.any (fun o => o.id == obj.id)

/-- The scene: its object list and the active object, the latter held by
reference and so modelled by id. -/
structure Scene where
  objects : List SceneObj
  active : Option Nat
deriving DecidableEq

/-- utils.get_objects_in_scene: the scene objects not in the ignore
list. -/
def get_objects_in_scene (scene : Scene) (objects_to_ignore : List SceneObj) : List SceneObj :=
  scene.objects.filter (fun obj => !pyIn obj objects_to_ignore)

/-- utils.get_selected_objects_in_scene. -/
def get_selected_objects_in_scene (scene : Scene) (objects_to_ignore : List SceneObj) : List SceneObj :=
  (get_objects_in_scene scene objects_to_ignore).filter (fun obj => obj.select)

/-- utils.select_only_objects_in_scene: sets the select flag of every
scene object to its membership in the given list. -/
def select_only_objects_in_scene (scene : Scene) (objects : List SceneObj) : Scene :=
  { scene with objects := scene.objects.map (fun obj => { obj with select := pyIn obj objects }) }

/-- A dynamically typed Python attribute value, as far as the probe reads
them. -/
inductive PyVal
  | str (s : String)
  | bool (b : Bool)
deriving DecidableEq

/-- Python getattr on a possibly null object for the attribute names the
probe uses: None has none of these attributes, an Object has all three. -/
def obj_getattr : Option SceneObj → String → Option PyVal
  | none, _ => none
  | some o, k =>
    if k = "mode" then some (.str o.mode)
    else if k = "type" then some (.str o.type)
    else if k = "select" then some (.bool o.select)
    else none

/-- utils.object_has_properties: for every key-value pair, the object has
the attribute (hasattr) and its value equals the given one. -/
def object_has_properties (obj : Option SceneObj) (properties : List (String × PyVal)) : Bool :=
  properties.all (fun kv => decide (obj_getattr obj kv.1 = some kv.2))

/-- utils.object_can_be_remeshed: mode OBJECT, type MESH, select true. -/
def object_can_be_remeshed (obj : Option SceneObj) : Bool :=
  object_has_properties obj
    [("mode", .str "OBJECT"), ("type", .str "MESH"), ("select", .bool true)]

/-- The report string of operators.py for a non-manifold mesh under the
require-manifold option. -/
def manifold_error_report : String :=
  "The 'Require Manifold Input' option is set to True, but the active " ++
  "object's mesh is not manifold, so the object will not be remeshed."

/-- The report string of operators.py for a PermissionError from the
subprocess launch. -/
def permission_error_report : String :=
  "There was a permission error during QuadriFlow processing.  This may " ++
  "happen if Autoflow's QuadriFlow path is incorrect or inaccessible.  " ++
  "See Blender's system console for details."

/-- The report string of operators.py for a subprocess.SubprocessError
from the launch. -/
def subprocess_error_report : String :=
  "There was a subprocess error during QuadriFlow processing.  See " ++
  "Blender's system console for details."

/-- An external effect the execute method performs through the host or
the OS, in order of occurrence. -/
inductive Effect
  | exportScene (filepath : String) (use_selection use_triangles : Bool)
  | runQuadriflow (cmd : List String) (timeout : Option Int)
  | importScene (filepath : String)
deriving DecidableEq

/-- What lies outside the add-on during one execute run: the temporary
directory the host hands out, how the OS ends the subprocess launch, and
the fresh objects the obj importer adds to the scene when it is
reached. -/
structure HostRun where
  temp_directory : String
  subprocess : SubprocessOutcome
  imported_objects : List SceneObj
deriving DecidableEq

/-- The outcome of AutoflowOperator.execute: the scene it leaves behind,
the error reports it issued, the external effects it performed, and the
returned status set. -/
structure ExecResult where
  scene : Scene
  reports : List String
  effects : List Effect
  status : String
deriving DecidableEq

/-- Lines 117 to 124 of operators.py, after the with block: compute the
objects new since the invocation started; if there are any, select
exactly those and make the last the active object, otherwise re-select
the objects recorded as selected at the start. -/
def finalize_selection (scene2 : Scene) (initial_objects initial_selected_objects : List SceneObj) : Scene :=
  match get_objects_in_scene scene2 initial_objects with
  | [] => select_only_objects_in_scene scene2 initial_selected_objects
  | x :: xs =>
    { select_only_objects_in_scene scene2 (x :: xs) with
      active := some ((x :: xs).getLast (List.cons_ne_nil x xs)).id }

/-- AutoflowOperator.execute (operators.py).  The early return on the
manifold guard reports and leaves everything untouched.  Otherwise the
initial object list and selection are recorded, the selection is reduced
to the active object, the object is exported into the temporary
directory, remesh_with_quadriflow launches the executable, a
PermissionError or SubprocessError from the launch is caught and
reported while any other outcome continues into the import of the output
file, and the final selection is fixed up from the set of new objects.
Exceptions other than these two (never raised by launches modelled in
SubprocessOutcome) are outside this model. -/
def AutoflowOperator_execute (env : Env) (host : HostRun) (scene : Scene)
    (active_obj : SceneObj) (af : AutoflowSettings) : ExecResult :=
  if af.require_manifold && !mesh_is_manifold active_obj.data then
    { scene := scene, reports := [manifold_error_report], effects := [], status := "FINISHED" }
  else
    let initial_objects := get_objects_in_scene scene []
    let initial_selected_objects := get_selected_objects_in_scene scene []
    let scene1 := select_only_objects_in_scene scene [active_obj]
    let obj_path := host.temp_directory ++ "/" ++ active_obj.name ++ ".obj"
    let remeshed_path := get_quadriflow_output_path obj_path
    let timeout := get_quadriflow_timeout_from_addon_prefs env
    let call := remesh_with_quadriflow env obj_path remeshed_path af (some timeout) host.subprocess
    let step :=
      match call.result with
      | .raised e =>
        (scene1,
         [if e == PyErr.permissionError then permission_error_report else subprocess_error_report],
         [Effect.exportScene obj_path true true, Effect.runQuadriflow call.cmd call.timeout])
      | .ok =>
        ({ scene1 with objects := scene1.objects ++ host.imported_objects },
         ([] : List String),
         [Effect.exportScene obj_path true true, Effect.runQuadriflow call.cmd call.timeout,
          Effect.importScene remeshed_path])
    { scene := finalize_selection step.1 initial_objects initial_selected_objects,
      reports := step.2.1, effects := step.2.2, status := "FINISHED" }

/-- The report strings of AUTOFLOW_OT_remesh_dialog.pre_execution_error_message,
in check order. -/
def quadriflow_path_unset_message : String :=
  "The QuadriFlow Path must be set in the Autoflow add-on preferences " ++
  "before Autoflow can be used."

/-- Second message of pre_execution_error_message. -/
def quadriflow_path_missing_message : String :=
  "The QuadriFlow Path that is set in the Autoflow add-on preferences " ++
  "cannot be found on this computer.  Please change the QuadriFlow Path."

/-- Third message of pre_execution_error_message. -/
def no_remeshable_object_message : String :=
  "A mesh must be selected in object mode to use Autoflow."

/-- Fourth message of pre_execution_error_message. -/
def os_unsupported_message : String :=
  "Autoflow is compatible only with Linux and Windows."

/-- AUTOFLOW_OT_remesh_dialog.pre_execution_error_message: the four
checks in source order, returning the message of the first that fails
and the empty string when all pass. -/
def pre_execution_error_message (env : Env) (active_object : Option SceneObj) : String :=
  if !quadriflow_path_pref_is_set env then quadriflow_path_unset_message
  else if !(env.fileExists (get_quadriflow_path_from_addon_prefs env)) then quadriflow_path_missing_message
  else if !object_can_be_remeshed active_object then no_remeshable_object_message
  else if !autoflow_is_compatible_with_os env then os_unsupported_message
  else ""

/-- What the dialog invoke call does: reports an error, or opens the
props dialog. -/
inductive InvokeResult
  | reported (msg : String)
  | dialogOpened
deriving DecidableEq

/-- AUTOFLOW_OT_remesh_dialog.invoke: a nonempty pre-execution error
message is reported and the dialog is not opened; otherwise the settings
dialog is opened. -/
def AUTOFLOW_OT_remesh_dialog_invoke (env : Env) (active_object : Option SceneObj) : InvokeResult :=
  let error_message := pre_execution_error_message env active_object
  if error_message != "" then .reported error_message else .dialogOpened

/-- Which operator button the tools panel draws (ui.py): one of the four
disabled warning buttons, or the enabled remesh button. -/
inductive PanelButton
  | setPathButton
  | pathNotFoundButton
  | selectMeshButton
  | osButton
  | remeshButton
deriving DecidableEq

/-- AUTOFLOW_PT_tools_panel.draw, reduced to which button it puts on the
layout: the same four precondition checks as the dialog, in the same
order. -/
def AUTOFLOW_PT_tools_panel_draw (env : Env) (active_object : Option SceneObj) : PanelButton :=
  if !quadriflow_path_pref_is_set env then .setPathButton
  else if !(env.fileExists (get_quadriflow_path_from_addon_prefs env)) then .pathNotFoundButton
  else if !object_can_be_remeshed active_object then .selectMeshButton
  else if !autoflow_is_compatible_with_os env then .osButton
  else .remeshButton

/-- The precondition table as the spec states it for C7: each check
paired with its message, in the spec priority order. -/
def spec_precondition_table (env : Env) (active_object : Option SceneObj) : List (Bool × String) :=
  [ (quadriflow_path_pref_is_set env, quadriflow_path_unset_message),
    (env.fileExists (get_quadriflow_path_from_addon_prefs env), quadriflow_path_missing_message),
    (object_can_be_remeshed active_object, no_remeshable_object_message),
    (autoflow_is_compatible_with_os env, os_unsupported_message) ]

/-- The message of the first failing check of the spec table, the empty
string when every check passes (the spec side of C7). -/
def spec_first_failing_message (env : Env) (active_object : Option SceneObj) : String :=
  match (spec_precondition_table env active_object).find? (fun c => !c.1) with
  | some c => c.2
  | none => ""

/-- A sample environment: Linux host, no helper executables on the PATH,
every file present, the add-on enabled with a configured path and a
30 second timeout. -/
def sampleEnv : Env :=
  { platform := "linux"
    installed := fun _ => false
    fileExists := fun _ => true
    enabledAddons := fun addon_name =>
      if addon_name = packageName then
        some { quadriflow_path := some "/usr/bin/quadriflow", quadriflow_timeout := some 30 }
      else none }

/-- A sample environment whose stored timeout preference is negative. -/
def negTimeoutEnv : Env :=
  { sampleEnv with
    enabledAddons := fun addon_name =>
      if addon_name = packageName then
        some { quadriflow_path := some "/usr/bin/quadriflow", quadriflow_timeout := some (-5) }
      else none }

/-- A sample environment in which the add-on is not among the enabled
add-ons, so no preference record exists. -/
def emptyEnv : Env :=
  { platform := "linux"
    installed := fun _ => false
    fileExists := fun _ => false
    enabledAddons := fun _ => none }

/-- The standard closed cube: 8 vertices, 12 edges, 6 quadrilateral
faces; a closed single-component manifold mesh. -/
def cubeMesh : BMesh :=
  { verts := [0, 1, 2, 3, 4, 5, 6, 7]
    edges := [(0, 1), (1, 2), (2, 3), (3, 0), (4, 5), (5, 6), (6, 7), (7, 4),
              (0, 4), (1, 5), (2, 6), (3, 7)]
    faces := [[0, 1, 2, 3], [4, 7, 6, 5], [0, 4, 5, 1], [1, 5, 6, 2],
              [2, 6, 7, 3], [4, 0, 3, 7]] }

/-- Three triangles sharing the edge (0, 1): that edge is bounded by
three faces, a standard non-manifold configuration. -/
def threeFaceEdgeMesh : BMesh :=
  { verts := [0, 1, 2, 3, 4]
    edges := [(0, 1), (0, 2), (1, 2), (0, 3), (1, 3), (0, 4), (1, 4)]
    faces := [[0, 1, 2], [0, 1, 3], [0, 1, 4]] }

/-- Sample settings: every flag off, resolution 7. -/
def sampleSettings : AutoflowSettings :=
  { flip_removal := false
    min_cost_flow := false
    require_manifold := false
    resolution := 7
    sharp_preserving := false }

/-- Sample settings with the manifold requirement switched on. -/
def manifoldSettings : AutoflowSettings :=
  { sampleSettings with require_manifold := true }

/-- A selected cube object in object mode. -/
def cubeObj : SceneObj :=
  { id := 1, name := "Cube", mode := "OBJECT", type := "MESH", select := true,
    data := cubeMesh }

/-- A selected object in object mode whose mesh is not manifold. -/
def badObj : SceneObj :=
  { id := 2, name := "Bad", mode := "OBJECT", type := "MESH", select := true,
    data := threeFaceEdgeMesh }

/-- A mesh object in edit mode, selected. -/
def editObj : SceneObj :=
  { id := 3, name := "Edited", mode := "EDIT", type := "MESH", select := true,
    data := cubeMesh }

/-- A second pre-existing object, selected. -/
def otherObj : SceneObj :=
  { id := 5, name := "Other", mode := "OBJECT", type := "MESH", select := true,
    data := cubeMesh }

/-- The object the importer creates from the remeshed file. -/
def importedObj : SceneObj :=
  { id := 10, name := "Cube_remeshed", mode := "OBJECT", type := "MESH", select := true,
    data := cubeMesh }

/-- A sample scene holding the cube and one other selected object. -/
def sampleScene : Scene :=
  { objects := [cubeObj, otherObj], active := some 1 }

/-- A host run in which the executable exits 0 and the importer adds one
object. -/
def okHost : HostRun :=
  { temp_directory := "/tmp/work", subprocess := .completed 0,
    imported_objects := [importedObj] }

/-- A host run in which the executable exits with a nonzero code and the
importer still adds one object. -/
def nonzeroExitHost : HostRun :=
  { temp_directory := "/tmp/work", subprocess := .completed 7,
    imported_objects := [importedObj] }

/-- A host run in which the launch times out, so nothing is imported. -/
def timeoutHost : HostRun :=
  { temp_directory := "/tmp/work", subprocess := .timedOut,
    imported_objects := [] }

/-- Repetition of the empty string is the empty string. -/
theorem pyStrMul_empty (n : Nat) : pyStrMul "" n = "" := by
  induction n with
  | zero => rfl
  | succ n ih => rw [pyStrMul, ih]; decide

/-- Ignoring no objects returns the full scene object list. -/
theorem get_objects_in_scene_nil (scene : Scene) :
    get_objects_in_scene scene [] = scene.objects := by
  simp [get_objects_in_scene, pyIn]

/-- Ignoring no objects returns exactly the selected scene objects. -/
theorem get_selected_objects_in_scene_nil (scene : Scene) :
    get_selected_objects_in_scene scene [] = scene.objects.filter (fun o => o.select) := by
  simp [get_selected_objects_in_scene, get_objects_in_scene_nil]

/-- Identity-based membership ignores the select flag. -/
theorem pyIn_set_select (o : SceneObj) (g : Bool) (l : List SceneObj) :
    pyIn { o with select := g } l = pyIn o l := rfl

/-- Identity-based membership is unchanged when every list element has
its select flag rewritten. -/
theorem pyIn_map_set_select (o : SceneObj) (l : List SceneObj) (g : SceneObj → Bool) :
    pyIn o (l.map (fun x => { x with select := g x })) = pyIn o l := by
  simp only [pyIn, List.any_map]
  rfl

/-- Filtering by identity-based non-membership commutes with rewriting
select flags. -/
theorem filter_map_set_select (l : List SceneObj) (g : SceneObj → Bool) (ign : List SceneObj) :
    (l.map (fun x => { x with select := g x })).filter (fun o => !pyIn o ign)
      = (l.filter (fun o => !pyIn o ign)).map (fun x => { x with select := g x }) := by
  rw [List.filter_map]
  rfl

/-- The selection fix-up of operators.py lines 117 to 124: when the set
difference against the ignore list is nonempty exactly those objects end
selected and the last of them becomes active, and otherwise exactly the
remembered selection is restored. -/
theorem finalize_selection_selects (scene2 : Scene) (init sel : List SceneObj) :
    (((finalize_selection scene2 init sel).objects.filter (fun o => !pyIn o init)) ≠ [] →
      (∀ o ∈ (finalize_selection scene2 init sel).objects,
        o.select = pyIn o ((finalize_selection scene2 init sel).objects.filter
          (fun o => !pyIn o init)))
      ∧ (finalize_selection scene2 init sel).active =
          ((finalize_selection scene2 init sel).objects.filter
            (fun o => !pyIn o init)).getLast?.map SceneObj.id)
    ∧ (((finalize_selection scene2 init sel).objects.filter (fun o => !pyIn o init)) = [] →
      ∀ o ∈ (finalize_selection scene2 init sel).objects, o.select = pyIn o sel) := by
  cases hmatch : get_objects_in_scene scene2 init with
  | nil =>
    have hr : finalize_selection scene2 init sel = select_only_objects_in_scene scene2 sel := by
      unfold finalize_selection
      rw [hmatch]
    have hobj : (select_only_objects_in_scene scene2 sel).objects
        = scene2.objects.map (fun x => { x with select := pyIn x sel }) := rfl
    have hfe : scene2.objects.filter (fun o => !pyIn o init) = [] := by
      simpa [get_objects_in_scene] using hmatch
    have hflt : (select_only_objects_in_scene scene2 sel).objects.filter
        (fun o => !pyIn o init) = [] := by
      rw [hobj, filter_map_set_select, hfe]
      rfl
    rw [hr]
    refine ⟨fun hne => absurd hflt hne, fun _ o ho => ?_⟩
    rw [hobj] at ho
    rcases List.mem_map.mp ho with ⟨x, _, rfl⟩
    rfl
  | cons x xs =>
    have hr : finalize_selection scene2 init sel =
        { select_only_objects_in_scene scene2 (x :: xs) with
          active := some ((x :: xs).getLast (List.cons_ne_nil x xs)).id } := by
      unfold finalize_selection
      rw [hmatch]
    have hobj : ({ select_only_objects_in_scene scene2 (x :: xs) with
          active := some ((x :: xs).getLast (List.cons_ne_nil x xs)).id } : Scene).objects
        = scene2.objects.map (fun y => { y with select := pyIn y (x :: xs) }) := rfl
    have hfe : scene2.objects.filter (fun o => !pyIn o init) = x :: xs := by
      simpa [get_objects_in_scene] using hmatch
    have hflt : ({ select_only_objects_in_scene scene2 (x :: xs) with
          active := some ((x :: xs).getLast (List.cons_ne_nil x xs)).id } : Scene).objects.filter
          (fun o => !pyIn o init)
        = (x :: xs).map (fun y => { y with select := pyIn y (x :: xs) }) := by
      rw [hobj, filter_map_set_select, hfe]
    rw [hr]
    refine ⟨fun _ => ⟨fun o ho => ?_, ?_⟩, fun hempty => ?_⟩
    · rw [hobj] at ho
      rcases List.mem_map.mp ho with ⟨y, _, rfl⟩
      rw [hflt, pyIn_map_set_select, pyIn_set_select]
      rfl
    · rw [hflt, List.getLast?_map, List.getLast?_eq_getLast (x :: xs) (List.cons_ne_nil x xs)]
      rfl
    · rw [hflt] at hempty
      simp at hempty

/-- C1 counterexample: with every flag false the claim says the argument
vector holds nothing besides the executable path and the -i, -o, -f
groups; on the code the vector also holds three empty-string elements,
the residue of the omitted flag strings. -/
theorem c1_counterexample_vector_has_empty_elements :
    quadriflow_cmd sampleEnv "/tmp/in.obj" "/tmp/out.obj" sampleSettings ≠
      [get_quadriflow_path_from_addon_prefs sampleEnv,
       "-i", "/tmp/in.obj", "-o", "/tmp/out.obj", "-f", toString sampleSettings.resolution]
    ∧ "" ∈ quadriflow_cmd sampleEnv "/tmp/in.obj" "/tmp/out.obj" sampleSettings := by
  decide

/-- C1 amended: with useMinCostFlow, useSharpPreserving and
useFlipRemoval all false the argument vector omits the tokens -mcf,
-sharp and -sat and is exactly the executable path, three empty-string
elements standing where the omitted flags would go, then -i, the input
path, -o, the output path, -f and the resolution, in that order. -/
theorem c1_flagless_vector_exact (env : Env) (input_path output_path : String)
    (af : AutoflowSettings) (h1 : af.min_cost_flow = false)
    (h2 : af.sharp_preserving = false) (h3 : af.flip_removal = false) :
    quadriflow_cmd env input_path output_path af =
      [get_quadriflow_path_from_addon_prefs env, "", "", "",
       "-i", input_path, "-o", output_path, "-f", toString af.resolution] := by
  simp [quadriflow_cmd, h1, h2, h3, pyStrMul]

/-- C1 witness: the amended statement at a concrete environment,
concrete paths and the all-false sample settings. -/
theorem c1_flagless_vector_exact_witness :
    sampleSettings.min_cost_flow = false ∧ sampleSettings.sharp_preserving = false ∧
    sampleSettings.flip_removal = false ∧
    quadriflow_cmd sampleEnv "/tmp/in.obj" "/tmp/out.obj" sampleSettings =
      [get_quadriflow_path_from_addon_prefs sampleEnv, "", "", "",
       "-i", "/tmp/in.obj", "-o", "/tmp/out.obj", "-f", toString sampleSettings.resolution] :=
  ⟨rfl, rfl, rfl,
    c1_flagless_vector_exact sampleEnv "/tmp/in.obj" "/tmp/out.obj" sampleSettings rfl rfl rfl⟩

/-- C2: when the SAT capability check is false the command vector never
holds the token -sat, whatever useFlipRemoval is, and flipping
useFlipRemoval does not change the vector at all.  The inequality
hypotheses exclude only the degenerate case in which the configured
executable path, one of the two mesh file paths or the rendered
resolution is itself the literal string -sat. -/
theorem c2_sat_flag_never_emitted_when_disallowed (env : Env)
    (input_path output_path : String) (af : AutoflowSettings)
    (t : Option Int) (oc : SubprocessOutcome)
    (h : sat_flag_is_allowed env = false)
    (hp : get_quadriflow_path_from_addon_prefs env ≠ "-sat")
    (hi : input_path ≠ "-sat") (ho : output_path ≠ "-sat")
    (hr : toString af.resolution ≠ "-sat") :
    "-sat" ∉ (remesh_with_quadriflow env input_path output_path af t oc).cmd
    ∧ (remesh_with_quadriflow env input_path output_path
        { af with flip_removal := !af.flip_removal } t oc).cmd
      = (remesh_with_quadriflow env input_path output_path af t oc).cmd := by
  constructor
  · intro hmem
    have hcmd : (remesh_with_quadriflow env input_path output_path af t oc).cmd
        = quadriflow_cmd env input_path output_path af := rfl
    rw [hcmd] at hmem
    unfold quadriflow_cmd at hmem
    rw [h] at hmem
    cases h1 : af.min_cost_flow <;> cases h2 : af.sharp_preserving <;>
      cases h3 : af.flip_removal <;>
      simp_all [pyStrMul, pyStrMul_empty] <;>
      rcases hmem with hx | hx | hx | hx <;>
      first
        | exact hp hx.symm
        | exact hi hx.symm
        | exact ho hx.symm
        | exact hr hx.symm
  · cases h3 : af.flip_removal <;>
      simp [remesh_with_quadriflow, quadriflow_cmd, h, h3, pyStrMul, pyStrMul_empty]

/-- C2 witness: on a Linux host with no helpers installed the capability
check is false and the vector of a concrete invocation holds no -sat. -/
theorem c2_sat_flag_never_emitted_witness :
    sat_flag_is_allowed sampleEnv = false
    ∧ "-sat" ∉ (remesh_with_quadriflow sampleEnv "/tmp/in.obj" "/tmp/out.obj"
        { sampleSettings with flip_removal := true } (some 30) (.completed 0)).cmd :=
  ⟨by decide,
    (c2_sat_flag_never_emitted_when_disallowed sampleEnv "/tmp/in.obj" "/tmp/out.obj"
      { sampleSettings with flip_removal := true } (some 30) (.completed 0)
      (by decide) (by decide) (by decide) (by decide) (by decide)).1⟩

/-- C3: when the manifold requirement is on and the active object mesh
is not manifold, execute reports the manifold error and returns at once:
the scene is untouched, no export, launch or import effect happens. -/
theorem c3_manifold_guard_aborts_without_side_effects (env : Env) (host : HostRun)
    (scene : Scene) (active_obj : SceneObj) (af : AutoflowSettings)
    (h1 : af.require_manifold = true) (h2 : mesh_is_manifold active_obj.data = false) :
    AutoflowOperator_execute env host scene active_obj af =
      { scene := scene, reports := [manifold_error_report], effects := [],
        status := "FINISHED" } := by
  unfold AutoflowOperator_execute
  rw [h1, h2]
  rfl

/-- C3 witness: a concrete run on the three-triangle non-manifold mesh
with the manifold requirement on. -/
theorem c3_manifold_guard_witness :
    manifoldSettings.require_manifold = true
    ∧ mesh_is_manifold badObj.data = false
    ∧ AutoflowOperator_execute sampleEnv okHost sampleScene badObj manifoldSettings =
        { scene := sampleScene, reports := [manifold_error_report], effects := [],
          status := "FINISHED" } :=
  ⟨rfl, by decide,
    c3_manifold_guard_aborts_without_side_effects sampleEnv okHost sampleScene badObj
      manifoldSettings rfl (by decide)⟩

/-- C5: a completed launch returns normally whatever the exit code, the
check flag being false, and execute then always reaches the import of
the output file. -/
theorem c5_nonzero_exit_is_not_failure (env : Env) (host : HostRun) (scene : Scene)
    (active_obj : SceneObj) (af : AutoflowSettings)
    (input_path output_path : String) (t : Option Int) (c : Int)
    (hg : ¬(af.require_manifold = true ∧ mesh_is_manifold active_obj.data = false))
    (hc : host.subprocess = .completed c) :
    (remesh_with_quadriflow env input_path output_path af t (.completed c)).result = .ok
    ∧ Effect.importScene (get_quadriflow_output_path
        (host.temp_directory ++ "/" ++ active_obj.name ++ ".obj"))
      ∈ (AutoflowOperator_execute env host scene active_obj af).effects := by
  have hguard : (af.require_manifold && !mesh_is_manifold active_obj.data) = false := by
    cases hx : af.require_manifold <;> cases hy : mesh_is_manifold active_obj.data <;>
      simp_all
  constructor
  · simp [remesh_with_quadriflow, subprocess_run]
  · unfold AutoflowOperator_execute
    rw [if_neg (by simp [hguard])]
    rw [hc]
    exact List.mem_cons_of_mem _ (List.mem_cons_of_mem _ (List.mem_cons_self _ _))

/-- C5 witness: a concrete run in which the executable exits with the
nonzero code 7; the launch call returns normally and the import of the
remeshed file is performed. -/
theorem c5_nonzero_exit_witness :
    ¬(sampleSettings.require_manifold = true ∧ mesh_is_manifold cubeObj.data = false)
    ∧ nonzeroExitHost.subprocess = .completed 7
    ∧ (remesh_with_quadriflow sampleEnv "/tmp/in.obj" "/tmp/out.obj" sampleSettings
        (some 30) (.completed 7)).result = .ok
    ∧ Effect.importScene (get_quadriflow_output_path
        (nonzeroExitHost.temp_directory ++ "/" ++ cubeObj.name ++ ".obj"))
      ∈ (AutoflowOperator_execute sampleEnv nonzeroExitHost sampleScene cubeObj
          sampleSettings).effects := by
  have h := c5_nonzero_exit_is_not_failure sampleEnv nonzeroExitHost sampleScene cubeObj
    sampleSettings "/tmp/in.obj" "/tmp/out.obj" (some 30) 7 (by decide) rfl
  exact ⟨by decide, rfl, h.1, h.2⟩

/-- C6: the timeout read from preferences is never negative and a stored
negative value reads as 0; handing that value to the launch enforces no
timeout when it is 0 and exactly that value when positive. -/
theorem c6_timeout_clamped_and_enforced (env : Env) (input_path output_path : String)
    (af : AutoflowSettings) (oc : SubprocessOutcome) :
    0 ≤ get_quadriflow_timeout_from_addon_prefs env
    ∧ (∀ store n, env.enabledAddons packageName = some store →
        store.quadriflow_timeout = some n → n < 0 →
        get_quadriflow_timeout_from_addon_prefs env = 0)
    ∧ (remesh_with_quadriflow env input_path output_path af
        (some (get_quadriflow_timeout_from_addon_prefs env)) oc).timeout
      = (if get_quadriflow_timeout_from_addon_prefs env = 0 then none
         else some (get_quadriflow_timeout_from_addon_prefs env)) := by
  refine ⟨le_max_right _ _, ?_, ?_⟩
  · intro store n hs hn hneg
    simp [get_quadriflow_timeout_from_addon_prefs, get_addon_preference_timeout,
      get_addon_preferences, hs, hn]
    omega
  · by_cases h0 : get_quadriflow_timeout_from_addon_prefs env = 0
    · simp [remesh_with_quadriflow, h0]
    · simp [remesh_with_quadriflow, h0]

/-- C6 witness: with a stored timeout of -5 the read value is 0 and no
timeout is enforced; with a stored timeout of 30 the read value is 30
and exactly 30 seconds are enforced. -/
theorem c6_timeout_witness :
    0 ≤ get_quadriflow_timeout_from_addon_prefs negTimeoutEnv
    ∧ get_quadriflow_timeout_from_addon_prefs negTimeoutEnv = 0
    ∧ (remesh_with_quadriflow negTimeoutEnv "/tmp/in.obj" "/tmp/out.obj" sampleSettings
        (some (get_quadriflow_timeout_from_addon_prefs negTimeoutEnv)) (.completed 0)).timeout
      = none
    ∧ (remesh_with_quadriflow sampleEnv "/tmp/in.obj" "/tmp/out.obj" sampleSettings
        (some (get_quadriflow_timeout_from_addon_prefs sampleEnv)) (.completed 0)).timeout
      = some 30 := by
  have h := c6_timeout_clamped_and_enforced negTimeoutEnv "/tmp/in.obj" "/tmp/out.obj"
    sampleSettings (.completed 0)
  have h' := c6_timeout_clamped_and_enforced sampleEnv "/tmp/in.obj" "/tmp/out.obj"
    sampleSettings (.completed 0)
  have hz : get_quadriflow_timeout_from_addon_prefs negTimeoutEnv = 0 :=
    h.2.1 { quadriflow_path := some "/usr/bin/quadriflow", quadriflow_timeout := some (-5) }
      (-5) (by decide) rfl (by decide)
  refine ⟨h.1, hz, ?_, ?_⟩
  · rw [h.2.2, if_pos hz]
  · rw [h'.2.2, if_neg (by decide)]
    decide

/-- C4: past the manifold guard, whenever the set difference of the
resulting scene objects against the pre-invocation scene objects is
nonempty, exactly those new objects end selected and the last of them is
the active object; otherwise exactly the objects selected before the
invocation end selected again. -/
theorem c4_new_objects_selected_or_selection_restored (env : Env) (host : HostRun)
    (scene : Scene) (active_obj : SceneObj) (af : AutoflowSettings)
    (hg : ¬(af.require_manifold = true ∧ mesh_is_manifold active_obj.data = false)) :
    (((AutoflowOperator_execute env host scene active_obj af).scene.objects.filter
        (fun o => !pyIn o scene.objects)) ≠ [] →
      (∀ o ∈ (AutoflowOperator_execute env host scene active_obj af).scene.objects,
        o.select = pyIn o ((AutoflowOperator_execute env host scene active_obj af).scene.objects.filter
          (fun o => !pyIn o scene.objects)))
      ∧ (AutoflowOperator_execute env host scene active_obj af).scene.active =
          ((AutoflowOperator_execute env host scene active_obj af).scene.objects.filter
            (fun o => !pyIn o scene.objects)).getLast?.map SceneObj.id)
    ∧ (((AutoflowOperator_execute env host scene active_obj af).scene.objects.filter
        (fun o => !pyIn o scene.objects)) = [] →
      ∀ o ∈ (AutoflowOperator_execute env host scene active_obj af).scene.objects,
        o.select = pyIn o (scene.objects.filter (fun o => o.select))) := by
  have hguard : (af.require_manifold && !mesh_is_manifold active_obj.data) = false := by
    cases hx : af.require_manifold <;> cases hy : mesh_is_manifold active_obj.data <;>
      simp_all
  obtain ⟨s2, rs, es, hexec⟩ : ∃ s2 rs es,
      AutoflowOperator_execute env host scene active_obj af =
        { scene := finalize_selection s2 (get_objects_in_scene scene [])
            (get_selected_objects_in_scene scene []),
          reports := rs, effects := es, status := "FINISHED" } := by
    unfold AutoflowOperator_execute
    rw [if_neg (by simp [hguard])]
    exact ⟨_, _, _, rfl⟩
  rw [get_objects_in_scene_nil, get_selected_objects_in_scene_nil] at hexec
  rw [hexec]
  exact finalize_selection_selects s2 scene.objects (scene.objects.filter (fun o => o.select))

/-- C4 witness: a concrete successful run in which the importer adds one
object; after the run exactly the new object is selected and active. -/
theorem c4_selection_witness :
    ¬(sampleSettings.require_manifold = true ∧ mesh_is_manifold cubeObj.data = false)
    ∧ ((((AutoflowOperator_execute sampleEnv okHost sampleScene cubeObj sampleSettings).scene.objects.filter
        (fun o => !pyIn o sampleScene.objects)) ≠ [] →
      (∀ o ∈ (AutoflowOperator_execute sampleEnv okHost sampleScene cubeObj sampleSettings).scene.objects,
        o.select = pyIn o ((AutoflowOperator_execute sampleEnv okHost sampleScene cubeObj
          sampleSettings).scene.objects.filter (fun o => !pyIn o sampleScene.objects)))
      ∧ (AutoflowOperator_execute sampleEnv okHost sampleScene cubeObj sampleSettings).scene.active =
          ((AutoflowOperator_execute sampleEnv okHost sampleScene cubeObj
            sampleSettings).scene.objects.filter
            (fun o => !pyIn o sampleScene.objects)).getLast?.map SceneObj.id)
    ∧ ((((AutoflowOperator_execute sampleEnv okHost sampleScene cubeObj
          sampleSettings).scene.objects.filter (fun o => !pyIn o sampleScene.objects)) = [] →
      ∀ o ∈ (AutoflowOperator_execute sampleEnv okHost sampleScene cubeObj sampleSettings).scene.objects,
        o.select = pyIn o (sampleScene.objects.filter (fun o => o.select))))) :=
  ⟨by decide,
    c4_new_objects_selected_or_selection_restored sampleEnv okHost sampleScene cubeObj
      sampleSettings (by decide)⟩

/-- C7: the dialog pre-execution check returns the message of the first
failing precondition in the priority order of the spec (the empty string
when all pass); a nonempty message is reported and the dialog stays
closed, an empty one opens the dialog. -/
theorem c7_precondition_priority_and_invoke (env : Env) (active_object : Option SceneObj) :
    pre_execution_error_message env active_object = spec_first_failing_message env active_object
    ∧ (pre_execution_error_message env active_object ≠ "" →
        AUTOFLOW_OT_remesh_dialog_invoke env active_object =
          .reported (pre_execution_error_message env active_object))
    ∧ (pre_execution_error_message env active_object = "" →
        AUTOFLOW_OT_remesh_dialog_invoke env active_object = .dialogOpened) := by
  refine ⟨?_, ?_, ?_⟩
  · cases hb1 : quadriflow_path_pref_is_set env <;>
      cases hb2 : env.fileExists (get_quadriflow_path_from_addon_prefs env) <;>
      cases hb3 : object_can_be_remeshed active_object <;>
      cases hb4 : autoflow_is_compatible_with_os env <;>
      simp [pre_execution_error_message, spec_first_failing_message, spec_precondition_table,
        hb1, hb2, hb3, hb4]
  · intro hne
    simp [AUTOFLOW_OT_remesh_dialog_invoke, bne_iff_ne, hne]
  · intro he
    simp [AUTOFLOW_OT_remesh_dialog_invoke, he]

/-- C7 witness: with no preference record the first check fails, its
message is reported and no dialog opens; with everything configured on a
Linux host with a remeshable object the dialog opens. -/
theorem c7_precondition_witness :
    pre_execution_error_message emptyEnv none = spec_first_failing_message emptyEnv none
    ∧ AUTOFLOW_OT_remesh_dialog_invoke emptyEnv none =
        .reported (pre_execution_error_message emptyEnv none)
    ∧ AUTOFLOW_OT_remesh_dialog_invoke sampleEnv (some cubeObj) = .dialogOpened :=
  ⟨(c7_precondition_priority_and_invoke emptyEnv none).1,
    (c7_precondition_priority_and_invoke emptyEnv none).2.1 (by decide),
    (c7_precondition_priority_and_invoke sampleEnv (some cubeObj)).2.2 (by decide)⟩

/-- C8: object_can_be_remeshed holds exactly of a non-null, mesh-typed,
object-mode, selected object; it is false on None and false on an
edit-mode object however selected and typed, and never raises. -/
theorem c8_object_can_be_remeshed_characterisation (obj : Option SceneObj) :
    (object_can_be_remeshed obj = true ↔
      ∃ o : SceneObj, obj = some o ∧ o.mode = "OBJECT" ∧ o.type = "MESH" ∧ o.select = true)
    ∧ object_can_be_remeshed none = false
    ∧ (∀ o : SceneObj, o.mode = "EDIT" → object_can_be_remeshed (some o) = false) := by
  refine ⟨?_, rfl, ?_⟩
  · cases obj with
    | none => simp [object_can_be_remeshed, object_has_properties, obj_getattr]
    | some o => simp [object_can_be_remeshed, object_has_properties, obj_getattr]
  · intro o h
    simp [object_can_be_remeshed, object_has_properties, obj_getattr, h]

/-- C8 witness: a selected mesh object in edit mode is not remeshable. -/
theorem c8_edit_mode_witness :
    editObj.mode = "EDIT" ∧ editObj.type = "MESH" ∧ editObj.select = true
    ∧ object_can_be_remeshed (some editObj) = false :=
  ⟨rfl, rfl, rfl,
    (c8_object_can_be_remeshed_characterisation (some editObj)).2.2 editObj rfl⟩

/-- C9: mesh_is_manifold holds exactly when every edge is bounded by two
faces and every vertex fan is a single connected disk; it holds of the
closed cube and fails on the mesh with an edge shared by three faces. -/
theorem c9_mesh_is_manifold_characterisation :
    (∀ m : BMesh, mesh_is_manifold m = true ↔
      ((∀ e ∈ m.edges, edge_face_count m e = 2) ∧ (∀ v ∈ m.verts, vert_is_manifold m v = true)))
    ∧ mesh_is_manifold cubeMesh = true
    ∧ mesh_is_manifold threeFaceEdgeMesh = false := by
  refine ⟨fun m => ?_, by decide, by decide⟩
  simp [mesh_is_manifold, all_elements_are_manifold, List.all_eq_true, edge_is_manifold,
    beq_iff_eq]

/-- C9 witness: the characterisation applied to the cube. -/
theorem c9_cube_witness : mesh_is_manifold cubeMesh = true :=
  c9_mesh_is_manifold_characterisation.2.1

/-- C10: with the preference record absent, or with a preference never
set, every read falls back to its default: the path getter returns the
Path of the empty string, the timeout getter returns 0, the path is
reported unset, and the panel draws the set-path warning button. -/
theorem c10_missing_preferences_default (env : Env) (active_object : Option SceneObj) :
    (env.enabledAddons packageName = none →
      get_quadriflow_path_from_addon_prefs env = pyPath ""
      ∧ get_quadriflow_timeout_from_addon_prefs env = 0
      ∧ quadriflow_path_pref_is_set env = false
      ∧ AUTOFLOW_PT_tools_panel_draw env active_object = .setPathButton)
    ∧ (∀ store, env.enabledAddons packageName = some store →
        (store.quadriflow_path = none →
          get_quadriflow_path_from_addon_prefs env = pyPath ""
          ∧ quadriflow_path_pref_is_set env = false
          ∧ AUTOFLOW_PT_tools_panel_draw env active_object = .setPathButton)
        ∧ (store.quadriflow_timeout = none →
          get_quadriflow_timeout_from_addon_prefs env = 0)) := by
  constructor
  · intro h
    have hp : get_quadriflow_path_from_addon_prefs env = pyPath "" := by
      simp [get_quadriflow_path_from_addon_prefs, get_addon_preference_path,
        get_addon_preferences, h]
    have hset : quadriflow_path_pref_is_set env = false := by
      simp [quadriflow_path_pref_is_set, hp]
    refine ⟨hp, ?_, hset, ?_⟩
    · simp [get_quadriflow_timeout_from_addon_prefs, get_addon_preference_timeout,
        get_addon_preferences, h]
    · simp [AUTOFLOW_PT_tools_panel_draw, hset]
  · intro store hs
    constructor
    · intro hpn
      have hp : get_quadriflow_path_from_addon_prefs env = pyPath "" := by
        simp [get_quadriflow_path_from_addon_prefs, get_addon_preference_path,
          get_addon_preferences, hs, hpn]
      have hset : quadriflow_path_pref_is_set env = false := by
        simp [quadriflow_path_pref_is_set, hp]
      refine ⟨hp, hset, ?_⟩
      simp [AUTOFLOW_PT_tools_panel_draw, hset]
    · intro htn
      simp [get_quadriflow_timeout_from_addon_prefs, get_addon_preference_timeout,
        get_addon_preferences, hs, htn]

/-- C10 witness: the fallbacks at the environment with no preference
record. -/
theorem c10_missing_preferences_witness :
    emptyEnv.enabledAddons packageName = none
    ∧ get_quadriflow_path_from_addon_prefs emptyEnv = pyPath ""
    ∧ get_quadriflow_timeout_from_addon_prefs emptyEnv = 0
    ∧ quadriflow_path_pref_is_set emptyEnv = false
    ∧ AUTOFLOW_PT_tools_panel_draw emptyEnv none = .setPathButton := by
  have h := (c10_missing_preferences_default emptyEnv none).1 rfl
  exact ⟨rfl, h.1, h.2.1, h.2.2.1, h.2.2.2⟩

end Autoflow
